import Mathlib

/-!
Shallow embedding of the police administrative dashboard client
(a Next.js/TypeScript application). The definitions below mirror the
source files of the repository: the axios client and its error
interceptor (src/lib/api/client.ts), the resource accessors
(src/lib/api/criminals.ts, src/lib/api/alerts.ts, src/lib/api/enroll.ts,
src/unnamed/part_007), the upload card validation
(src/components/UploadCard.tsx), the enrollment page duplicate guard
(src/app/upload/page.tsx), the alerts table (src/unnamed/part_002), the
complaints triage filters (src/app/upload/page.tsx, complaints page) and
the analytics aggregation (src/app/analytics/page.tsx). Network effects
are abstracted as an explicit request outcome; everything else is the
same control flow as the source. Confidence scores and thresholds are
JS numbers compared with plain order; they are modelled as rationals.
-/

namespace PoliceDash

/-- JSON-like values exchanged with the HTTP backend. -/
inductive JsonVal where
  | null
  | bool (b : Bool)
  | num (n : Int)
  | str (s : String)
  | arr (elems : List JsonVal)
  | obj (fields : List (String × JsonVal))

/-- First binding of a key in a JS object literal (property lookup). -/
def lookupField : List (String × JsonVal) → String → Option JsonVal
  | [], _ => none
  | (k, v) :: rest, key => if k == key then some v else lookupField rest key

/-- Response-envelope detection used by the criminals and alerts
accessors: when the body is an object carrying a data property, that
property is returned, otherwise the body is returned unchanged. This
mirrors the test on response.data for a data key. (On a truthy
primitive body the JS in-operator would throw; such bodies do not occur
and are mapped to the body itself here.) -/
def unwrapEnvelope (body : JsonVal) : JsonVal :=
  match body with
  | .obj fields =>
    match lookupField fields "data" with
    | some payload => payload
    | none => .obj fields
  | _ => body

/-- JS String.prototype.toLowerCase, modelled characterwise. -/
def jsToLowerCase (s : String) : String :=
  String.mk (s.data.map Char.toLower)

/-- JS String.prototype.trim: strip leading and trailing whitespace. -/
def jsTrim (s : String) : String :=
  String.mk (((s.data.dropWhile Char.isWhitespace).reverse.dropWhile Char.isWhitespace).reverse)

/-- Error shape thrown by the api layer (class ApiError in
src/lib/api/client.ts). -/
structure ApiError where
  message : String
  statusCode : Option Int
  response : Option JsonVal

/-- A failed axios request as seen by the response interceptor: either a
response with an http status and a body, a request that received no
response, or a request-setup failure. -/
inductive AxiosFailure where
  | response (status : Int) (data : JsonVal) (axiosMessage : String)
  | request (axiosMessage : String)
  | setup (axiosMessage : String)

/-- JS or-else on strings: an empty string is falsy. -/
def jsOr (s fallback : String) : String :=
  if s == "" then fallback else s

/-- Nonempty string field of an error body. The backend error envelope
fields (error, detail, message) are modelled as strings. -/
def strField (fields : List (String × JsonVal)) (key : String) : Option String :=
  match lookupField fields key with
  | some (.str s) => if s == "" then none else some s
  | _ => none

/-- The interceptor reads data.error, then data.detail, then
data.message, falling back to the axios error message. -/
def errorMessageOf (data : JsonVal) (axiosMessage : String) : String :=
  match data with
  | .obj fields =>
    (strField fields "error" <|> strField fields "detail" <|> strField fields "message").getD
      axiosMessage
  | _ => axiosMessage

/-- Fallback base url from getApiBaseUrl when no environment variable is
set (src/lib/api/client.ts lines 11-18). -/
def API_BASE_URL : String := "https://policestaging.codegnan.ai/"

/-- Response interceptor branch for an http error response
(src/lib/api/client.ts lines 94-128): the status is mapped to an
ApiError carrying a message, the status code and the raw body. -/
def interceptResponseError (status : Int) (data : JsonVal) (axiosMessage : String) : ApiError :=
  let errorMessage := errorMessageOf data axiosMessage
  if status == 400 then
    { message := jsOr errorMessage "Invalid request", statusCode := some 400, response := some data }
  else if status == 401 then
    { message := "Unauthorized access", statusCode := some 401, response := some data }
  else if status == 403 then
    { message := jsOr errorMessage "Access forbidden", statusCode := some 403, response := some data }
  else if status == 404 then
    { message := "Resource not found", statusCode := some 404, response := some data }
  else if status == 500 then
    { message := jsOr errorMessage "Internal server error", statusCode := some 500, response := some data }
  else if status == 503 then
    { message := jsOr errorMessage "Service temporarily unavailable", statusCode := some 503, response := some data }
  else
    { message := jsOr errorMessage "An error occurred", statusCode := some status, response := some data }

/-- Whole interceptor error handler (src/lib/api/client.ts lines 94-147). -/
def interceptFailure : AxiosFailure → ApiError
  | .response status data axiosMessage => interceptResponseError status data axiosMessage
  | .request _ =>
    { message := "Network error: Unable to reach server at " ++ API_BASE_URL ++
        ". Please ensure the backend is running.",
      statusCode := some 0, response := none }
  | .setup axiosMessage =>
    { message := jsOr axiosMessage "Request setup failed", statusCode := some 0, response := none }

/-- Outcome of one http request, abstracting the network. -/
inductive NetOutcome where
  | success (body : JsonVal)
  | failure (f : AxiosFailure)

/-- Anything a thrown JS value can be at an accessor catch site: an
ApiError or some other error. -/
inductive Thrown where
  | api (e : ApiError)
  | js (msg : String)

/-- Accessor catch clause: an ApiError is rethrown unchanged, anything
else is wrapped into a fixed-message ApiError with code 500. -/
def accessorCatch (fallbackMessage : String) : Thrown → ApiError
  | .api e => e
  | .js _ => { message := fallbackMessage, statusCode := some 500, response := none }

/-- Issue the request and funnel any failure through the interceptor and
then the accessor catch clause. -/
def runAccessorRequest (fallbackMessage : String) : NetOutcome → Except ApiError JsonVal
  | .success body => .ok body
  | .failure f => .error (accessorCatch fallbackMessage (.api (interceptFailure f)))

/-- getCriminals (src/lib/api/criminals.ts lines 21-74), the request
itself abstracted into a NetOutcome. The optional filter params only
shape the query string and are omitted. The body is unwrapped from the
optional envelope (lines 63-67). -/
def getCriminals (limitParam offsetParam : Option Int) (net : NetOutcome) :
    Except ApiError JsonVal :=
  let limit := limitParam.getD 100
  let offset := offsetParam.getD 0
  if limit < 1 ∨ limit > 1000 then
    .error { message := "limit must be between 1 and 1000", statusCode := some 400, response := none }
  else if offset < 0 then
    .error { message := "offset must be non-negative", statusCode := some 400, response := none }
  else
    (runAccessorRequest "Failed to retrieve criminals" net).map unwrapEnvelope

/-- Valid alert statuses (src/lib/api/alerts.ts line 120). -/
def validStatuses : List String := ["Pending", "Verified", "Rejected"]

/-- updateAlertStatus (src/lib/api/alerts.ts lines 112-145). The body is
unwrapped from the optional envelope (lines 134-138). -/
def updateAlertStatus (alertId : String) (status : String) (net : NetOutcome) :
    Except ApiError JsonVal :=
  if alertId == "" ∨ jsTrim alertId == "" then
    .error { message := "alertId is required", statusCode := some 400, response := none }
  else if ¬ (validStatuses.contains status = true) then
    .error { message := "Invalid status. Must be one of: Pending, Verified, Rejected",
             statusCode := some 400, response := none }
  else
    (runAccessorRequest "Failed to update alert status" net).map unwrapEnvelope

/-- Browser File value: only the fields the client reads. -/
structure FileData where
  name : String
  type : String
  size : Int

/-- Form fields appended for a match request (src/unnamed/part_007 lines
41-49). -/
structure MatchFormData where
  image : FileData
  max_results : Int
  similarity_threshold : ℚ
  create_alert : Bool
  sender_id : Option String

/-- Validation and form building of matchFace (src/unnamed/part_007
lines 28-49): everything that happens before the request is issued. -/
def matchFaceForm (image : Option FileData) (maxResults : Int)
    (similarityThreshold : ℚ) (createAlert : Bool) (senderId : Option String) :
    Except ApiError MatchFormData :=
  match image with
  | none => .error { message := "Image file is required", statusCode := some 400, response := none }
  | some img =>
    if maxResults < 1 ∨ maxResults > 100 then
      .error { message := "maxResults must be between 1 and 100",
               statusCode := some 400, response := none }
    else if similarityThreshold < 0 ∨ similarityThreshold > 100 then
      .error { message := "similarityThreshold must be between 0 and 100",
               statusCode := some 400, response := none }
    else
      .ok { image := img, max_results := maxResults,
            similarity_threshold := similarityThreshold,
            create_alert := createAlert, sender_id := senderId }

/-- matchFace (src/unnamed/part_007 lines 21-69). On success the body is
returned as is: line 62 returns response.data with no envelope
handling. -/
def matchFace (image : Option FileData) (maxResults : Int) (similarityThreshold : ℚ)
    (createAlert : Bool) (senderId : Option String) (net : NetOutcome) :
    Except ApiError JsonVal :=
  match matchFaceForm image maxResults similarityThreshold createAlert senderId with
  | .error e => .error e
  | .ok _ => runAccessorRequest "Failed to match face" net

/-- Image MIME types accepted by uploadSingleImage (src/lib/api/enroll.ts
line 46). The webp type is absent from this list. -/
def enrollValidTypes : List String :=
  ["image/jpeg", "image/jpg", "image/png", "image/bmp", "image/gif"]

/-- uploadSingleImage (src/lib/api/enroll.ts lines 25-92): validation,
then the request; on success the body is returned as is (line 85). -/
def uploadSingleImage (image : Option FileData) (name : String) (personId : Option String)
    (crimeType : String) (gender : Option String) (state district ageRange : String)
    (applyAugmentations : Bool) (net : NetOutcome) : Except ApiError JsonVal :=
  match image with
  | none => .error { message := "Image file is required", statusCode := some 400, response := none }
  | some img =>
    if name == "" ∨ jsTrim name == "" then
      .error { message := "Name is required", statusCode := some 400, response := none }
    else if ¬ (enrollValidTypes.contains (jsToLowerCase img.type) = true) then
      .error { message := "Invalid image type. Supported: JPEG, PNG, BMP, GIF",
               statusCode := some 400, response := none }
    else
      runAccessorRequest "Failed to enroll image" net

/-- Valid image MIME types of the upload card
(src/components/UploadCard.tsx lines 27-34). -/
def VALID_IMAGE_TYPES : List String :=
  ["image/jpeg", "image/jpg", "image/png", "image/bmp", "image/gif", "image/webp"]

/-- isValidImageType (src/components/UploadCard.tsx lines 39-41). -/
def isValidImageType (fileType : String) : Bool :=
  VALID_IMAGE_TYPES.contains (jsToLowerCase fileType)

/-- Reasons validateFile (src/components/UploadCard.tsx lines 67-91) can
reject a file, in check order. -/
inductive FileValidationError where
  | invalidType
  | tooLarge
  | empty
  deriving DecidableEq

/-- validateFile checks, in order: type, size, emptiness. -/
def validateFileError (file : FileData) (maxSizeMB : Int) : Option FileValidationError :=
  if !(isValidImageType file.type) then some .invalidType
  else if file.size > maxSizeMB * 1024 * 1024 then some .tooLarge
  else if file.size == 0 then some .empty
  else none

/-- Message shown for an invalid type (src/components/UploadCard.tsx
line 73). -/
def invalidTypeMessage : String :=
  "Invalid file type. Please select a JPEG, PNG, BMP, GIF, or WebP image."

/-- MatchResult (src/unnamed/part_009): confidence is a 0-100 score. -/
structure MatchResult where
  person_id : String
  name : String
  crime_type : Option String
  confidence : ℚ
  face_id : Option String
  image_url : Option String
  gender : Option String
  state : Option String
  district : Option String
  age_range : Option String

/-- MatchResponse (src/unnamed/part_009). The source field holding the
match list is spelled matches there; that spelling is reserved here, so
the field carries a trailing underscore. -/
structure MatchResponse where
  query_image_url : String
  matches_ : List MatchResult
  total_matches : Int

/-- View state of the enrollment page that the duplicate guard touches
(src/app/upload/page.tsx). -/
structure UploadPageState where
  file : Option FileData
  existingMatch : Option MatchResult
  checkingMatch : Bool
  toasts : List String

/-- Decision taken on a successful probe response
(src/app/upload/page.tsx lines 108-114): the value stored into
existingMatch. -/
def checkExistingPersonResult (matchResult : MatchResponse) : Option MatchResult :=
  match matchResult.matches_ with
  | [] => none
  | topMatch :: _ => if topMatch.confidence ≥ 80 then some topMatch else none

/-- Effect that runs when a file is selected (src/app/upload/page.tsx
lines 94-123): existingMatch is cleared, the probe runs, a success
stores checkExistingPersonResult, any probe error is only logged, and
checkingMatch is reset. -/
def fileSelectedStep (file : FileData) (probe : Except ApiError MatchResponse)
    (st : UploadPageState) : UploadPageState :=
  let st1 : UploadPageState :=
    { st with file := some file, checkingMatch := true, existingMatch := none }
  let st2 : UploadPageState :=
    match probe with
    | .ok matchResult => { st1 with existingMatch := checkExistingPersonResult matchResult }
    | .error _ => st1
  { st2 with checkingMatch := false }

/-- Clearing the file (src/app/upload/page.tsx lines 124-126). -/
def fileClearedStep (st : UploadPageState) : UploadPageState :=
  { st with file := none, existingMatch := none }

/-- The blocking Person Already Exists modal is rendered iff
existingMatch is set (src/app/upload/page.tsx lines 350-374). -/
def personAlreadyExistsModalShown (st : UploadPageState) : Bool :=
  st.existingMatch.isSome

/-- The probe request the page issues for a selected file
(src/app/upload/page.tsx lines 101-106). -/
def probeRequest (file : FileData) : Except ApiError MatchFormData :=
  matchFaceForm (some file) 1 80 false none

/-- Status targets of the action buttons rendered for one alert row
(src/unnamed/part_002 lines 445-476): Verify and Reject appear exactly
when the status is the string Pending, and initiate updates to Verified
and Rejected. -/
def alertRowActions (status : String) : List String :=
  if status == "Pending" then ["Verified", "Rejected"] else []

/-- Complaint row (src/unnamed/part_000). -/
structure Complaint where
  id : String
  created_at : String
  complaint_type : String
  status : String
  deriving DecidableEq

/-- Pending-tab filter predicate (src/app/upload/page.tsx lines 512-517). -/
def pendingStatusCheck (s : String) : Bool :=
  s == "Pending" || s == "pending" || s == "submitted" || s == "Submitted"

/-- Open-tab filter predicate (src/app/upload/page.tsx line 519). -/
def openStatusCheck (s : String) : Bool :=
  s == "Open" || s == "open"

/-- Closed-tab filter predicate (src/app/upload/page.tsx lines 521-526). -/
def closedStatusCheck (s : String) : Bool :=
  s == "Closed" || s == "Resolved" || s == "closed" || s == "resolved"

/-- getFilteredComplaints (src/app/upload/page.tsx lines 509-528). -/
def getFilteredComplaints (status : String) (complaints : List Complaint) : List Complaint :=
  if status == "pending" then complaints.filter (fun c => pendingStatusCheck c.status)
  else if status == "open" then complaints.filter (fun c => openStatusCheck c.status)
  else complaints.filter (fun c => closedStatusCheck c.status)

/-- All status spellings recognized by the three tab filters. -/
def recognizedComplaintStatuses : List String :=
  ["Pending", "pending", "submitted", "Submitted", "Open", "open",
   "Closed", "Resolved", "closed", "resolved"]

/-- Short month names produced by toLocaleString with a short month in
the default en locale. -/
def monthShortNames : List String :=
  ["Jan", "Feb", "Mar", "Apr", "May", "Jun", "Jul", "Aug", "Sep", "Oct", "Nov", "Dec"]

/-- Short name of a month index (0 is January, as in a JS Date). -/
def monthShortName (m : Fin 12) : String :=
  monthShortNames.getD m.val ""

/-- JS Date month normalization: Date(y, mIdx, 1) rolls mIdx into the
0-11 range, adjusting the year; only the month reaches the chart key. -/
def jsMonthNorm (mIdx : Int) : Fin 12 :=
  ⟨(mIdx % 12).toNat, by
    have h0 : 0 ≤ mIdx % 12 := Int.emod_nonneg mIdx (by norm_num)
    have h1 : mIdx % 12 < 12 := Int.emod_lt_of_pos mIdx (by norm_num)
    omega⟩

/-- Complaint fields fetched by the analytics page; created_at is
modelled by its parsed month and year. -/
structure AnalyticsComplaint where
  id : String
  created_month : Fin 12
  created_year : Int
  complaint_type : Option String
  status : String

/-- RTI request row as fetched by the analytics page. -/
structure RtiRecord where
  id : String
  created_month : Fin 12
  created_year : Int
  status : String

/-- One chart bucket of the monthly trend. -/
structure TrendBucket where
  name : String
  complaints : Nat
  rti : Nat
  deriving DecidableEq

/-- Assignment months[key] = (name, 0, 0) on a JS object: replace when
the key exists, else append (insertion order is preserved). -/
def setBucket (buckets : List TrendBucket) (key : String) : List TrendBucket :=
  if buckets.any (fun b => b.name == key) then
    buckets.map (fun b => if b.name == key then { name := key, complaints := 0, rti := 0 } else b)
  else
    buckets ++ [{ name := key, complaints := 0, rti := 0 }]

/-- Bucket initialisation loop (src/app/analytics/page.tsx lines 65-71). -/
def trendInit (currentMonth : Fin 12) : List TrendBucket :=
  ([5, 4, 3, 2, 1, 0] : List Int).foldl
    (fun buckets i => setBucket buckets (monthShortName (jsMonthNorm ((currentMonth.val : Int) - i))))
    []

/-- Guarded increment of the complaints count of the bucket keyed by the
record month name (src/app/analytics/page.tsx lines 73-77). -/
def bumpComplaints (buckets : List TrendBucket) (key : String) : List TrendBucket :=
  buckets.map (fun b => if b.name == key then { b with complaints := b.complaints + 1 } else b)

/-- Guarded increment of the rti count (src/app/analytics/page.tsx lines
79-83). -/
def bumpRti (buckets : List TrendBucket) (key : String) : List TrendBucket :=
  buckets.map (fun b => if b.name == key then { b with rti := b.rti + 1 } else b)

/-- Monthly trend aggregation (src/app/analytics/page.tsx lines 64-85). -/
def monthlyTrend (currentMonth : Fin 12) (complaints : List AnalyticsComplaint)
    (rtis : List RtiRecord) : List TrendBucket :=
  let init := trendInit currentMonth
  let withComplaints := complaints.foldl
    (fun buckets c => bumpComplaints buckets (monthShortName c.created_month)) init
  rtis.foldl (fun buckets r => bumpRti buckets (monthShortName r.created_month)) withComplaints

/-- The six bucket keys, oldest first, current month last. -/
def trailingMonthKeys (currentMonth : Fin 12) : List String :=
  ([5, 4, 3, 2, 1, 0] : List Int).map
    (fun i => monthShortName (jsMonthNorm ((currentMonth.val : Int) - i)))

/-- Open filter of the analytics summary (src/app/analytics/page.tsx
lines 42-47). -/
def analyticsOpenCheck (s : String) : Bool :=
  s != "Resolved" && s != "Closed" && s != "closed" && s != "resolved"

/-- Closed filter of the analytics summary (src/app/analytics/page.tsx
lines 49-54). -/
def analyticsClosedCheck (s : String) : Bool :=
  s == "Resolved" || s == "Closed" || s == "closed" || s == "resolved"

/-- openComplaints summary count. -/
def openComplaintsCount (complaints : List AnalyticsComplaint) : Nat :=
  (complaints.filter (fun c => analyticsOpenCheck c.status)).length

/-- closedComplaints summary count. -/
def closedComplaintsCount (complaints : List AnalyticsComplaint) : Nat :=
  (complaints.filter (fun c => analyticsClosedCheck c.status)).length

/-- totalComplaints summary count. -/
def totalComplaintsCount (complaints : List AnalyticsComplaint) : Nat :=
  complaints.length

/-- Sample image file used to instantiate theorems. -/
def sampleFile : FileData := { name := "photo.png", type := "image/png", size := 2048 }

/-- Upload page state before any interaction. -/
def initialUploadState : UploadPageState :=
  { file := none, existingMatch := none, checkingMatch := false, toasts := [] }

/-- Sample match result with the given confidence. -/
def sampleMatchAt (c : ℚ) : MatchResult :=
  { person_id := "P-1"
    name := "Person One"
    crime_type := none
    confidence := c
    face_id := none
    image_url := none
    gender := none
    state := none
    district := none
    age_range := none }

/-- Probe response with a single match of the given confidence. -/
def probeResponseAt (c : ℚ) : MatchResponse :=
  { query_image_url := "q.png"
    matches_ := [sampleMatchAt c]
    total_matches := 1 }

/-- On a successful probe the modal visibility is exactly the guard
decision on the response. -/
lemma modalShown_of_ok (file : FileData) (st : UploadPageState) (resp : MatchResponse) :
    personAlreadyExistsModalShown (fileSelectedStep file (.ok resp) st) =
      (checkExistingPersonResult resp).isSome := rfl

/-- The guard decision is positive exactly when the match list is
non-empty and its head has confidence at least 80. -/
lemma checkExisting_isSome_iff (resp : MatchResponse) :
    (checkExistingPersonResult resp).isSome = true ↔
      ∃ topMatch rest, resp.matches_ = topMatch :: rest ∧ topMatch.confidence ≥ 80 := by
  rcases h : resp.matches_ with _ | ⟨t, r⟩
  · simp [checkExistingPersonResult, h]
  · by_cases hc : t.confidence ≥ 80 <;> simp [checkExistingPersonResult, h, hc]

/-- C1: in the enrollment duplicate guard, for every successful probe
response the blocking Person Already Exists modal is shown iff the match
list is non-empty and the top confidence is greater than or equal to the
threshold 80; a confidence of exactly 80 triggers the modal and 79.9
does not. -/
theorem duplicate_guard_modal_iff_threshold :
    (∀ (file : FileData) (st : UploadPageState) (resp : MatchResponse),
        personAlreadyExistsModalShown (fileSelectedStep file (.ok resp) st) = true ↔
          ∃ topMatch rest, resp.matches_ = topMatch :: rest ∧ topMatch.confidence ≥ 80)
    ∧ personAlreadyExistsModalShown
        (fileSelectedStep sampleFile (.ok (probeResponseAt 80)) initialUploadState) = true
    ∧ personAlreadyExistsModalShown
        (fileSelectedStep sampleFile (.ok (probeResponseAt (799 / 10))) initialUploadState)
        = false := by
  refine ⟨?_, ?_, ?_⟩
  · intro file st resp
    rw [modalShown_of_ok]
    exact checkExisting_isSome_iff resp
  · rw [modalShown_of_ok]
    simp [checkExistingPersonResult, probeResponseAt, sampleMatchAt]
  · rw [modalShown_of_ok]
    simp [checkExistingPersonResult, probeResponseAt, sampleMatchAt]
    norm_num

/-- C2: for every selected file the duplicate-guard probe passes the
matchFace validation and carries exactly maxResults 1,
similarityThreshold 80 and createAlert false; and when the probe fails
with any error, the state keeps the selected file, shows no modal and
raises no toast. -/
theorem probe_arguments_and_fail_open :
    (∀ file : FileData,
        probeRequest file =
          .ok { image := file, max_results := 1, similarity_threshold := 80,
                create_alert := false, sender_id := none })
    ∧ (∀ (file : FileData) (st : UploadPageState) (e : ApiError),
        fileSelectedStep file (.error e) st =
          { file := some file, existingMatch := none, checkingMatch := false,
            toasts := st.toasts }) := by
  constructor
  · intro file
    rfl
  · intro file st e
    rfl

/-- C3: the Verify and Reject actions of an alert row exist iff the
status is exactly the string Pending, so the only transitions this
client initiates are Pending to Verified and Pending to Rejected, and
once an alert carries the status Verified or Rejected the actions are
gone. -/
theorem alert_actions_iff_pending :
    (∀ status targetStatus : String,
        targetStatus ∈ alertRowActions status ↔
          status = "Pending" ∧ (targetStatus = "Verified" ∨ targetStatus = "Rejected"))
    ∧ alertRowActions "Pending" = ["Verified", "Rejected"]
    ∧ alertRowActions "Verified" = []
    ∧ alertRowActions "Rejected" = [] := by
  refine ⟨?_, rfl, rfl, rfl⟩
  intro status targetStatus
  by_cases h : status = "Pending"
  · subst h
    simp [alertRowActions]
  · simp [alertRowActions, h]

/-- The pending filter accepts exactly its four spellings. -/
lemma pendingStatusCheck_iff (s : String) :
    pendingStatusCheck s = true ↔
      s = "Pending" ∨ s = "pending" ∨ s = "submitted" ∨ s = "Submitted" := by
  simp only [pendingStatusCheck, Bool.or_eq_true, beq_iff_eq, or_assoc]

/-- The open filter accepts exactly its two spellings. -/
lemma openStatusCheck_iff (s : String) :
    openStatusCheck s = true ↔ s = "Open" ∨ s = "open" := by
  simp [openStatusCheck]

/-- The closed filter accepts exactly its four spellings. -/
lemma closedStatusCheck_iff (s : String) :
    closedStatusCheck s = true ↔
      s = "Closed" ∨ s = "Resolved" ∨ s = "closed" ∨ s = "resolved" := by
  simp only [closedStatusCheck, Bool.or_eq_true, beq_iff_eq, or_assoc]

/-- C4: the three triage buckets are pairwise disjoint; a complaint is
in a bucket iff it is in the fetched list and its status passes that
bucket filter, a recognized status passes exactly one filter, and any
other status passes none. -/
theorem complaint_buckets_partition :
    (∀ (complaints : List Complaint) (c : Complaint),
        (c ∈ getFilteredComplaints "pending" complaints ↔
            c ∈ complaints ∧ pendingStatusCheck c.status = true)
      ∧ (c ∈ getFilteredComplaints "open" complaints ↔
            c ∈ complaints ∧ openStatusCheck c.status = true)
      ∧ (c ∈ getFilteredComplaints "closed" complaints ↔
            c ∈ complaints ∧ closedStatusCheck c.status = true))
    ∧ (∀ s : String,
        (pendingStatusCheck s && openStatusCheck s) = false
      ∧ (pendingStatusCheck s && closedStatusCheck s) = false
      ∧ (openStatusCheck s && closedStatusCheck s) = false)
    ∧ (∀ s : String,
        (pendingStatusCheck s || openStatusCheck s || closedStatusCheck s) = true ↔
          s ∈ recognizedComplaintStatuses) := by
  refine ⟨?_, ?_, ?_⟩
  · intro complaints c
    refine ⟨?_, ?_, ?_⟩ <;> simp [getFilteredComplaints, List.mem_filter]
  · intro s
    refine ⟨?_, ?_, ?_⟩
    · cases hp : pendingStatusCheck s with
      | false => simp
      | true => rcases (pendingStatusCheck_iff s).mp hp with rfl | rfl | rfl | rfl <;> decide
    · cases hp : pendingStatusCheck s with
      | false => simp
      | true => rcases (pendingStatusCheck_iff s).mp hp with rfl | rfl | rfl | rfl <;> decide
    · cases ho : openStatusCheck s with
      | false => simp
      | true => rcases (openStatusCheck_iff s).mp ho with rfl | rfl <;> decide
  · intro s
    simp only [pendingStatusCheck, openStatusCheck, closedStatusCheck,
      recognizedComplaintStatuses, Bool.or_eq_true, beq_iff_eq, List.mem_cons,
      List.mem_singleton, List.not_mem_nil, or_false]
    tauto

/-- C5: a file with MIME type image/webp passes the upload-card type
check and its full validateFile, yet uploadSingleImage rejects it
client-side with a 400 ApiError naming only JPEG, PNG, BMP and GIF, so a
WebP image can never be enrolled although the card and its message
advertise WebP support. -/
theorem webp_passes_card_but_enroll_rejects :
    isValidImageType "image/webp" = true
    ∧ validateFileError { name := "f.webp", type := "image/webp", size := 1024 } 10 = none
    ∧ invalidTypeMessage =
        "Invalid file type. Please select a JPEG, PNG, BMP, GIF, or WebP image."
    ∧ enrollValidTypes.contains "image/webp" = false
    ∧ (∀ (crimeType state district ageRange : String)
         (applyAugmentations : Bool) (net : NetOutcome),
        uploadSingleImage (some { name := "f.webp", type := "image/webp", size := 1024 })
            "Alice" none crimeType none state district ageRange applyAugmentations net =
          .error { message := "Invalid image type. Supported: JPEG, PNG, BMP, GIF",
                   statusCode := some 400, response := none }) := by
  refine ⟨by decide, by decide, rfl, by decide, ?_⟩
  intro crimeType state district ageRange applyAugmentations net
  rfl

/-- C6 counterexample: on an enveloped success body, matchFace hands the
envelope object back to its caller unchanged instead of the normalized
payload the claim promises. -/
theorem matchFace_keeps_envelope :
    matchFace (some sampleFile) 5 80 true none
        (.success (JsonVal.obj [("data", JsonVal.obj [("total_matches", JsonVal.num 0)])])) ≠
      .ok (JsonVal.obj [("total_matches", JsonVal.num 0)]) := by
  intro h
  rw [show matchFace (some sampleFile) 5 80 true none
        (.success (JsonVal.obj [("data", JsonVal.obj [("total_matches", JsonVal.num 0)])])) =
      .ok (JsonVal.obj [("data", JsonVal.obj [("total_matches", JsonVal.num 0)])]) from rfl] at h
  simp at h

/-- C6 amended: the criminals and alerts accessors normalize both the
enveloped response shape and the bare one through unwrapEnvelope, while
matchFace and uploadSingleImage perform no envelope detection and return
the response body exactly as received. -/
theorem envelope_normalization_per_accessor :
    (∀ (payload : JsonVal) (extras : List (String × JsonVal)),
        unwrapEnvelope (.obj (("data", payload) :: extras)) = payload)
    ∧ (∀ fields : List (String × JsonVal),
        unwrapEnvelope (.obj fields) = (lookupField fields "data").getD (.obj fields))
    ∧ (∀ elems : List JsonVal, unwrapEnvelope (.arr elems) = .arr elems)
    ∧ (∀ body : JsonVal, getCriminals none none (.success body) = .ok (unwrapEnvelope body))
    ∧ (∀ body : JsonVal,
        updateAlertStatus "a1" "Verified" (.success body) = .ok (unwrapEnvelope body))
    ∧ (∀ body : JsonVal,
        matchFace (some sampleFile) 1 80 false none (.success body) = .ok body)
    ∧ (∀ body : JsonVal,
        uploadSingleImage (some sampleFile) "Alice" none "Theft" none "S" "D" "20-30" false
            (.success body) = .ok body) := by
  refine ⟨?_, ?_, ?_, ?_, ?_, ?_, ?_⟩
  · intro payload extras
    simp [unwrapEnvelope, lookupField]
  · intro fields
    unfold unwrapEnvelope
    cases h : lookupField fields "data" <;> simp [h]
  · intro elems
    rfl
  · intro body
    rfl
  · intro body
    rfl
  · intro body
    rfl
  · intro body
    rfl

/-- C7: a client-side validation failure yields a fixed-message 400
ApiError whatever the network would have answered (so no request is
consulted); an http error response is thrown exactly as the interceptor
shaped it, carrying the extracted message, the status code and the raw
body; and the accessor catch clause rethrows an ApiError unchanged while
wrapping any other thrown value into the fixed fallback ApiError. -/
theorem accessor_error_taxonomy :
    (∀ (lim off : Int) (net : NetOutcome), (lim < 1 ∨ lim > 1000) →
        getCriminals (some lim) (some off) net =
          .error { message := "limit must be between 1 and 1000",
                   statusCode := some 400, response := none })
    ∧ (∀ (off : Int) (net : NetOutcome), off < 0 →
        getCriminals none (some off) net =
          .error { message := "offset must be non-negative",
                   statusCode := some 400, response := none })
    ∧ (∀ net : NetOutcome,
        updateAlertStatus "a1" "Approved" net =
          .error { message := "Invalid status. Must be one of: Pending, Verified, Rejected",
                   statusCode := some 400, response := none })
    ∧ (∀ (status : Int) (data : JsonVal) (axiosMessage : String),
        getCriminals none none (.failure (.response status data axiosMessage)) =
          .error (interceptFailure (.response status data axiosMessage)))
    ∧ (∀ (status : Int) (data : JsonVal) (axiosMessage : String),
        (interceptFailure (.response status data axiosMessage)).statusCode = some status
        ∧ (interceptFailure (.response status data axiosMessage)).response = some data)
    ∧ (∀ (fallbackMessage : String) (e : ApiError),
        accessorCatch fallbackMessage (.api e) = e)
    ∧ (∀ fallbackMessage msg : String,
        accessorCatch fallbackMessage (.js msg) =
          { message := fallbackMessage, statusCode := some 500, response := none }) := by
  refine ⟨?_, ?_, ?_, ?_, ?_, ?_, ?_⟩
  · intro lim off net h
    simp only [getCriminals, Option.getD_some]
    rw [if_pos h]
  · intro off net h
    simp only [getCriminals, Option.getD_some, Option.getD_none]
    rw [if_neg (by decide), if_pos h]
  · intro net
    rfl
  · intro status data axiosMessage
    rfl
  · intro status data axiosMessage
    constructor <;>
      (simp only [interceptFailure, interceptResponseError]
       split_ifs <;> simp_all [beq_iff_eq])
  · intro fallbackMessage e
    rfl
  · intro fallbackMessage msg
    rfl

/-- C7 witness: the validation clauses applied at limit 0 and at offset
minus one, with an arbitrary successful network outcome. -/
theorem accessor_error_taxonomy_witness :
    ((0 : Int) < 1 ∨ (0 : Int) > 1000)
    ∧ getCriminals (some 0) (some 0) (.success .null) =
        .error { message := "limit must be between 1 and 1000",
                 statusCode := some 400, response := none }
    ∧ ((-1 : Int) < 0)
    ∧ getCriminals none (some (-1)) (.success .null) =
        .error { message := "offset must be non-negative",
                 statusCode := some 400, response := none } :=
  ⟨Or.inl (by decide),
   accessor_error_taxonomy.1 0 0 (.success .null) (Or.inl (by decide)),
   by decide,
   accessor_error_taxonomy.2.1 (-1) (.success .null) (by decide)⟩

/-- C8: matchFace rejects maxResults 0 and 101 with a 400 ApiError
whatever the network outcome, and its validation passes maxResults 1 and
100, producing the request form. -/
theorem matchFace_maxResults_boundaries :
    (∀ net : NetOutcome,
        matchFace (some sampleFile) 0 80 false none net =
          .error { message := "maxResults must be between 1 and 100",
                   statusCode := some 400, response := none })
    ∧ (∀ net : NetOutcome,
        matchFace (some sampleFile) 101 80 false none net =
          .error { message := "maxResults must be between 1 and 100",
                   statusCode := some 400, response := none })
    ∧ matchFaceForm (some sampleFile) 1 80 false none =
        .ok { image := sampleFile, max_results := 1, similarity_threshold := 80,
              create_alert := false, sender_id := none }
    ∧ matchFaceForm (some sampleFile) 100 80 false none =
        .ok { image := sampleFile, max_results := 100, similarity_threshold := 80,
              create_alert := false, sender_id := none } := by
  refine ⟨fun net => rfl, fun net => rfl, rfl, rfl⟩

/-- The bucket initialisation loop produces one zero bucket per trailing
month key, in loop order. -/
lemma trendInit_eq : ∀ m : Fin 12,
    trendInit m = (trailingMonthKeys m).map
      (fun k => { name := k, complaints := 0, rti := 0 }) := by decide

/-- The last of the six keys is the current month. -/
lemma trailingMonthKeys_getLast : ∀ m : Fin 12,
    (trailingMonthKeys m).getLast? = some (monthShortName m) := by decide

/-- Folding the guarded complaints increment over a record list adds to
every bucket the number of records whose key equals the bucket name. -/
lemma foldl_bumpComplaints {α : Type} (keyOf : α → String) (recs : List α)
    (buckets : List TrendBucket) :
    recs.foldl (fun bs r => bumpComplaints bs (keyOf r)) buckets =
      buckets.map (fun b =>
        { name := b.name,
          complaints := b.complaints + recs.countP (fun r => keyOf r == b.name),
          rti := b.rti }) := by
  induction recs generalizing buckets with
  | nil =>
    simp only [List.foldl_nil, List.countP_nil, Nat.add_zero]
    rw [show (fun b : TrendBucket =>
          ({ name := b.name, complaints := b.complaints, rti := b.rti } : TrendBucket)) =
        id from funext fun b => rfl, List.map_id]
  | cons r rs ih =>
    rw [List.foldl_cons, ih]
    simp only [bumpComplaints, List.map_map]
    apply List.map_congr_left
    intro b _
    by_cases h : b.name = keyOf r
    · simp [h, List.countP_cons]
      omega
    · have h2 : keyOf r ≠ b.name := fun hh => h hh.symm
      simp [h, h2, List.countP_cons]

/-- Folding the guarded rti increment over a record list adds to every
bucket the number of records whose key equals the bucket name. -/
lemma foldl_bumpRti {α : Type} (keyOf : α → String) (recs : List α)
    (buckets : List TrendBucket) :
    recs.foldl (fun bs r => bumpRti bs (keyOf r)) buckets =
      buckets.map (fun b =>
        { name := b.name,
          complaints := b.complaints,
          rti := b.rti + recs.countP (fun r => keyOf r == b.name) }) := by
  induction recs generalizing buckets with
  | nil =>
    simp only [List.foldl_nil, List.countP_nil, Nat.add_zero]
    rw [show (fun b : TrendBucket =>
          ({ name := b.name, complaints := b.complaints, rti := b.rti } : TrendBucket)) =
        id from funext fun b => rfl, List.map_id]
  | cons r rs ih =>
    rw [List.foldl_cons, ih]
    simp only [bumpRti, List.map_map]
    apply List.map_congr_left
    intro b _
    by_cases h : b.name = keyOf r
    · simp [h, List.countP_cons]
      omega
    · have h2 : keyOf r ≠ b.name := fun hh => h hh.symm
      simp [h, h2, List.countP_cons]

/-- C9: the monthly trend is exactly six buckets, one per short month
name of the last six calendar months with the current month last, and a
record is counted in a bucket iff the short month name of its creation
month equals the bucket key, with the creation year playing no role at
all. -/
theorem monthly_trend_bucketing :
    ∀ (currentMonth : Fin 12) (complaints : List AnalyticsComplaint) (rtis : List RtiRecord),
      monthlyTrend currentMonth complaints rtis =
        (trailingMonthKeys currentMonth).map (fun k =>
          { name := k,
            complaints := complaints.countP (fun c => monthShortName c.created_month == k),
            rti := rtis.countP (fun r => monthShortName r.created_month == k) })
      ∧ (monthlyTrend currentMonth complaints rtis).length = 6
      ∧ (∀ y : Int,
          monthlyTrend currentMonth (complaints.map (fun c => { c with created_year := y }))
            rtis = monthlyTrend currentMonth complaints rtis)
      ∧ (trailingMonthKeys currentMonth).getLast? = some (monthShortName currentMonth) := by
  have key : ∀ (m : Fin 12) (cs : List AnalyticsComplaint) (rs : List RtiRecord),
      monthlyTrend m cs rs = (trailingMonthKeys m).map (fun k =>
        { name := k,
          complaints := cs.countP (fun c => monthShortName c.created_month == k),
          rti := rs.countP (fun r => monthShortName r.created_month == k) }) := by
    intro m cs rs
    simp only [monthlyTrend]
    rw [trendInit_eq m, foldl_bumpComplaints (fun c => monthShortName c.created_month) cs,
      List.map_map, foldl_bumpRti (fun r => monthShortName r.created_month) rs, List.map_map]
    apply List.map_congr_left
    intro k _
    simp [Function.comp]
  intro m cs rs
  refine ⟨key m cs rs, ?_, ?_, trailingMonthKeys_getLast m⟩
  · rw [key m cs rs]
    simp [trailingMonthKeys]
  · intro y
    rw [key m _ rs, key m cs rs]
    apply List.map_congr_left
    intro k _
    rw [List.countP_map]
    rfl

/-- Two boolean predicates that are pointwise complementary split the
length of every list between their filters. -/
lemma filter_complement_length {α : Type} (p q : α → Bool) (hq : ∀ a, q a = !(p a))
    (l : List α) :
    (l.filter q).length + (l.filter p).length = l.length := by
  induction l with
  | nil => rfl
  | cons a t ih =>
    cases h : p a with
    | false =>
      have hqa : q a = true := by rw [hq a, h]; rfl
      simp [List.filter_cons, h, hqa]
      omega
    | true =>
      have hqa : q a = false := by rw [hq a, h]; rfl
      simp [List.filter_cons, h, hqa]
      omega

/-- C10: the analytics open filter is the exact boolean complement of
the closed filter, so every fetched complaint, a complaint with an
unrecognized status included, is counted in exactly one of the two and
the open and closed summary counts always add up to the total. -/
theorem analytics_open_closed_partition :
    (∀ s : String, analyticsOpenCheck s = !(analyticsClosedCheck s))
    ∧ (∀ complaints : List AnalyticsComplaint,
        openComplaintsCount complaints + closedComplaintsCount complaints =
          totalComplaintsCount complaints) := by
  have hc : ∀ s, analyticsOpenCheck s = !(analyticsClosedCheck s) := by
    intro s
    simp [analyticsOpenCheck, analyticsClosedCheck, Bool.not_or, bne]
  refine ⟨hc, ?_⟩
  intro complaints
  exact filter_complement_length (fun c => analyticsClosedCheck c.status)
    (fun c => analyticsOpenCheck c.status) (fun c => hc c.status) complaints

end PoliceDash
